import Mathlib

/-!
Verification of the release-notifier program (`src/main.go`) against its
natural-language specification.  The dispatcher loop of `main` is embedded
shallowly: sink HTTP calls are represented by oracle functions returning an
optional error string, and the loop body becomes a pure function from a
`Repository` event to the list of sink invocations it performs and the log
records it writes.  The Checker (whose source file is not part of the
provided sources) is modelled from the specification where claims need it.
-/

namespace Notifier

/-- A release as carried by an event.  `nonstable` records the value of the
external classifier `IsNonstable()` for this release, which the dispatcher
consults as a black-box boolean. -/
structure Release where
  name : String
  tag : String
  nonstable : Bool
deriving DecidableEq, Repr

/-- A repository event flowing on the `releases` channel in `main.go`. -/
structure Repository where
  owner : String
  rname : String
  release : Release
deriving DecidableEq, Repr

/-- The configuration record of `main.go` (fields the dispatcher reads). -/
structure Config where
  GithubToken : String
  GitlabAPIToken : String
  GitlabHostname : String
  GitlabProjectID : Int
  LogLevel : String
  Repositories : List String
  SlackHook : String
  IgnoreNonstable : Bool
deriving DecidableEq, Repr

/-- The two sinks of the program. -/
inductive Sink where
  | slack
  | gitlab
deriving DecidableEq, Repr

/-- Severity of a structured log record. -/
inductive Severity where
  | debug
  | info
  | warn
  | error
deriving DecidableEq, Repr

/-- A structured log record as emitted by the dispatcher loop: a severity,
the `msg` field and the optional `err` field.  The code attaches no other
fields to the records written in the loop. -/
structure LogRecord where
  lvl : Severity
  msg : String
  err : Option String
  version : Option String
deriving DecidableEq, Repr

/-- `c.SlackHook != ""`: the guard of the chat-webhook branch in `main.go`. -/
def slackEnabled (c : Config) : Bool :=
  c.SlackHook != ""

/-- `c.GitlabAPIToken != "" && c.GitlabHostname != "" && c.GitlabProjectID > 0`:
the guard of the issue-tracker branch in `main.go`. -/
def gitlabEnabled (c : Config) : Bool :=
  c.GitlabAPIToken != "" && c.GitlabHostname != "" && decide (c.GitlabProjectID > 0)

/-- The warning record written on a sink failure: both sink branches of
`main.go` log `msg = "failed to send release to messenger"` with the error. -/
def sinkFailRecord (e : String) : LogRecord :=
  { lvl := .warn, msg := "failed to send release to messenger", err := some e,
    version := none }

/-- The debug record written when the stability filter drops an event,
carrying the `version` field set to the release name. -/
def nonstableRecord (v : String) : LogRecord :=
  { lvl := .debug, msg := "not notifying about non-stable version", err := none,
    version := some v }

/-- The issue-tracker tail of the loop body: executed after the chat-webhook
branch fell through without `continue`.  `acc` holds the sink invocations
already performed for this event. -/
def gitlabStep (c : Config) (gitlabSend : Repository → Option String)
    (r : Repository) (acc : List (Sink × Repository)) :
    List (Sink × Repository) × List LogRecord :=
  if gitlabEnabled c then
    match gitlabSend r with
    | some e => (acc ++ [(.gitlab, r)], [sinkFailRecord e])
    | none => (acc ++ [(.gitlab, r)], [])
  else (acc, [])

/-- One iteration of the dispatcher loop of `main.go` on one event:
the stability filter, then the chat-webhook branch (on error, warn and
`continue`), then the issue-tracker branch.  Returns the sink invocations
performed and the log records written for this event. -/
def dispatchOne (c : Config) (slackSend gitlabSend : Repository → Option String)
    (r : Repository) : List (Sink × Repository) × List LogRecord :=
  if c.IgnoreNonstable && r.release.nonstable then
    ([], [nonstableRecord r.release.name])
  else if slackEnabled c then
    match slackSend r with
    | some e => ([(.slack, r)], [sinkFailRecord e])
    | none => gitlabStep c gitlabSend r [(.slack, r)]
  else gitlabStep c gitlabSend r []

/-- The dispatcher loop over a finite prefix of the `releases` channel:
every received event is handled by `dispatchOne` and the loop moves to the
next event (every `continue` in the body targets the next iteration). -/
def dispatchAll (c : Config) (slackSend gitlabSend : Repository → Option String)
    (events : List Repository) : List (List (Sink × Repository) × List LogRecord) :=
  events.map (dispatchOne c slackSend gitlabSend)

/-- The startup check of `main.go`: after parsing, the process calls
`os.Exit(1)` iff the repository watch list is empty; no other `os.Exit`
is reached in `main`. -/
def startupExit (c : Config) : Option Nat :=
  if c.Repositories.length = 0 then some 1 else none

/-- The logger filter chosen by the `switch strings.ToLower(c.LogLevel)`
in `main.go`; the `default` arm selects the info filter and no arm exits. -/
inductive LogFilter where
  | allowDebug
  | allowWarn
  | allowError
  | allowInfo
deriving DecidableEq, Repr

/-- `strings.ToLower` restricted to the alphabet the switch compares
against: per-character lowercasing of the string. -/
def toLowerModel (s : String) : String :=
  String.mk (s.data.map Char.toLower)

/-- The `switch` on the lower-cased log level in `main.go`. -/
def logLevelFilter (s : String) : LogFilter :=
  match toLowerModel s with
  | "debug" => .allowDebug
  | "warn" => .allowWarn
  | "error" => .allowError
  | _ => .allowInfo

/-- A repository coordinate `(owner, name)`. -/
abbrev Coord := String × String

/-- The outcome of one upstream poll of one repository. -/
inductive PollResult where
  | release (tag : String)
  | notFound
  | failed
deriving DecidableEq, Repr

/-- The SeenTable: a mapping from coordinate to the most recently observed
release tag, kept as an association list. -/
abbrev SeenTable := List (Coord × String)

/-- Look up the last seen tag of a coordinate in the SeenTable. -/
def lookupTag : SeenTable → Coord → Option String
  | [], _ => none
  | (c, t) :: rest, k => if c = k then some t else lookupTag rest k

/-- Record a coordinate's tag in the SeenTable, replacing an earlier entry. -/
def setTag : SeenTable → Coord → String → SeenTable
  | [], k, t => [(k, t)]
  | (c, u) :: rest, k, t =>
      if c = k then (c, t) :: rest else (c, u) :: setTag rest k t

/-- Modelled from the spec: the Checker's per-repository poll step
(`checker.go` is not among the provided sources).  Follows the state table
of section 4.3: an absent coordinate is primed silently; an unchanged tag is
a no-op; a changed tag updates the table and emits one event `(coord, tag)`;
`NotFound` and errors leave the state intact and emit nothing. -/
def tickRepo (table : SeenTable) (coord : Coord) (res : PollResult) :
    SeenTable × List (Coord × String) :=
  match lookupTag table coord, res with
  | none, .release t => (setTag table coord t, [])
  | none, _ => (table, [])
  | some u, .release t =>
      if t = u then (table, []) else (setTag table coord t, [(coord, t)])
  | some _, _ => (table, [])

/-- Modelled from the spec: one Checker tick iterates the watch list
sequentially, threading the SeenTable and concatenating emissions in
iteration order. -/
def tick (table : SeenTable) (watch : List Coord) (poll : Coord → PollResult) :
    SeenTable × List (Coord × String) :=
  match watch with
  | [] => (table, [])
  | c :: rest =>
      let step := tickRepo table c (poll c)
      let next := tick step.1 rest poll
      (next.1, step.2 ++ next.2)

/-- Modelled from the spec: a run of the Checker over a list of ticks, each
tick given by its own poll oracle; starts from the given table and collects
every emission of every tick in order. -/
def runTicks (table : SeenTable) (watch : List Coord)
    (polls : List (Coord → PollResult)) : SeenTable × List (Coord × String) :=
  match polls with
  | [] => (table, [])
  | p :: rest =>
      let step := tick table watch p
      let next := runTicks step.1 watch rest
      (next.1, step.2 ++ next.2)

/-! Concrete fixtures used by witnesses and counterexamples. -/

/-- A stable release. -/
def relStable : Release :=
  { name := "v1.1.0", tag := "v1.1.0", nonstable := false }

/-- A non-stable release (as classified by `IsNonstable`). -/
def relNonstable : Release :=
  { name := "v1.1.0-rc.1", tag := "v1.1.0-rc.1", nonstable := true }

/-- A stable-release event. -/
def repoStable : Repository :=
  { owner := "octocat", rname := "hello-world", release := relStable }

/-- A non-stable-release event. -/
def repoNonstable : Repository :=
  { owner := "octocat", rname := "hello-world", release := relNonstable }

/-- Configuration with both sinks enabled and the stability filter on. -/
def cfgAllOn : Config :=
  { GithubToken := "tok", GitlabAPIToken := "gt", GitlabHostname := "gitlab.example",
    GitlabProjectID := 7, LogLevel := "info",
    Repositories := ["octocat/hello-world"], SlackHook := "https://hooks.example/x",
    IgnoreNonstable := true }

/-- Configuration with both sinks enabled and the stability filter off. -/
def cfgBothSinks : Config :=
  { cfgAllOn with IgnoreNonstable := false }

/-- Configuration with only the chat-webhook sink enabled. -/
def cfgSlackOnly : Config :=
  { cfgBothSinks with GitlabAPIToken := "", GitlabHostname := "", GitlabProjectID := 0 }

/-- Configuration with only the issue-tracker sink enabled. -/
def cfgGitlabOnly : Config :=
  { cfgBothSinks with SlackHook := "" }

/-- Configuration with no sink enabled. -/
def cfgNoSinks : Config :=
  { cfgSlackOnly with SlackHook := "" }

/-- Configuration with a non-empty watch list and an empty forge token. -/
def cfgNoToken : Config :=
  { cfgBothSinks with GithubToken := "" }

/-- A sink oracle that always succeeds. -/
def sendOk : Repository → Option String := fun _ => none

/-- A sink oracle that always fails with an HTTP 500 error. -/
def sendFail : Repository → Option String := fun _ => some "500 Internal Server Error"

/-- The coordinate polled by the spec-modelled alternating-tag run. -/
def coordC8 : Coord := ("octocat", "hello-world")

/-- Four ticks whose latest tag alternates between two values. -/
def pollsC8 : List (Coord → PollResult) :=
  [fun _ => PollResult.release "v1.0.0", fun _ => PollResult.release "v2.0.0",
   fun _ => PollResult.release "v1.0.0", fun _ => PollResult.release "v2.0.0"]

/-! Theorems settling the claims. -/

/-- C1: if the ignore-non-stable option is enabled and the event's release is
classified non-stable, the dispatcher drops the event: no sink `Send` is
invoked for it (and the only log record is the debug drop record). -/
theorem C1_stability_filter (c : Config) (s g : Repository → Option String)
    (r : Repository) (hopt : c.IgnoreNonstable = true)
    (hns : r.release.nonstable = true) :
    (dispatchOne c s g r).1 = [] ∧
    (dispatchOne c s g r).2 = [nonstableRecord r.release.name] := by
  simp [dispatchOne, hopt, hns]

/-- Witness for C1 at a concrete configuration and event. -/
theorem C1_witness :
    cfgAllOn.IgnoreNonstable = true ∧ repoNonstable.release.nonstable = true ∧
    (dispatchOne cfgAllOn sendFail sendFail repoNonstable).1 = [] :=
  ⟨rfl, rfl,
    (C1_stability_filter cfgAllOn sendFail sendFail repoNonstable rfl rfl).1⟩

/-- C2: for an event that passes the stability filter, sink invocations
happen in the fixed order chat-webhook then issue-tracker (the invocation
list is always a prefix-ordered sublist of that pair); if the chat-webhook
`Send` errs, the issue-tracker sink is not invoked for this event; and the
loop proceeds to the next event. -/
theorem C2_first_failure_stops (c : Config) (s g : Repository → Option String)
    (r : Repository) (rest : List Repository)
    (hpass : ¬(c.IgnoreNonstable = true ∧ r.release.nonstable = true)) :
    (dispatchOne c s g r).1 ∈
      ([[], [(Sink.slack, r)], [(Sink.gitlab, r)],
        [(Sink.slack, r), (Sink.gitlab, r)]] : List (List (Sink × Repository))) ∧
    (∀ e, slackEnabled c = true → s r = some e →
      (dispatchOne c s g r).1 = [(Sink.slack, r)]) ∧
    dispatchAll c s g (r :: rest) =
      dispatchOne c s g r :: dispatchAll c s g rest := by
  have hfilter : (c.IgnoreNonstable && r.release.nonstable) = false := by
    cases h1 : c.IgnoreNonstable <;> cases h2 : r.release.nonstable <;> simp_all
  refine ⟨?_, ?_, rfl⟩
  · unfold dispatchOne gitlabStep
    rw [hfilter]
    split
    · simp_all
    · split
      · split
        · simp
        · split
          · split <;> simp
          · simp
      · split
        · split <;> simp
        · simp
  · intro e hs hsend
    simp [dispatchOne, hfilter, hs, hsend]

/-- Witness for C2 at a concrete configuration where the chat sink fails. -/
theorem C2_witness :
    (dispatchOne cfgBothSinks sendFail sendOk repoStable).1 = [(Sink.slack, repoStable)] :=
  (C2_first_failure_stops cfgBothSinks sendFail sendOk repoStable [] (by decide)).2.1
    "500 Internal Server Error" rfl rfl

/-- C3: a sink failure while delivering an earlier event does not suppress
dispatch of later events: the loop handles every queued event by
`dispatchOne`, each independently of the others. -/
theorem C3_isolation (c : Config) (s g : Repository → Option String)
    (r1 r2 : Repository) (rest : List Repository) (e : String)
    (_hfail : s r1 = some e ∨ g r1 = some e) :
    dispatchAll c s g (r1 :: r2 :: rest) =
      dispatchOne c s g r1 :: dispatchOne c s g r2 :: dispatchAll c s g rest := rfl

/-- Witness for C3: the chat sink fails on the first event, the second event
is still dispatched. -/
theorem C3_witness :
    dispatchAll cfgBothSinks sendFail sendOk [repoStable, repoNonstable] =
      [dispatchOne cfgBothSinks sendFail sendOk repoStable,
       dispatchOne cfgBothSinks sendFail sendOk repoNonstable] :=
  C3_isolation cfgBothSinks sendFail sendOk repoStable repoNonstable []
    "500 Internal Server Error" (Or.inl rfl)

/-- The issue-tracker guard holds exactly when the configuration trio is
present and the project id is positive. -/
theorem gitlabEnabled_iff (c : Config) :
    gitlabEnabled c = true ↔
      (c.GitlabAPIToken ≠ "" ∧ c.GitlabHostname ≠ "" ∧ c.GitlabProjectID > 0) := by
  simp [gitlabEnabled, bne_iff_ne, decide_eq_true_iff, and_assoc]

/-- C4 (counterexample): with both sinks fully configured, a failing
chat-webhook `Send` prevents the issue-tracker sink from being invoked even
though its trio is configured with a positive project id, so "invoked iff
configured" is false as stated. -/
theorem C4_counterexample :
    (cfgBothSinks.GitlabAPIToken ≠ "" ∧ cfgBothSinks.GitlabHostname ≠ "" ∧
      cfgBothSinks.GitlabProjectID > 0) ∧
    (Sink.gitlab, repoStable) ∉ (dispatchOne cfgBothSinks sendFail sendOk repoStable).1 := by
  decide

/-- C4 (amended): the issue-tracker `Send` is invoked only if the trio
{hostname, api-token, project-id} is configured with a positive project id;
and for an event that passes the stability filter and for which the
chat-webhook sink does not fail (disabled or successful), it is invoked iff
the trio is so configured. -/
theorem C4_gitlab_enablement (c : Config) (s g : Repository → Option String)
    (r : Repository) :
    ((Sink.gitlab, r) ∈ (dispatchOne c s g r).1 →
      c.GitlabAPIToken ≠ "" ∧ c.GitlabHostname ≠ "" ∧ c.GitlabProjectID > 0) ∧
    (¬(c.IgnoreNonstable = true ∧ r.release.nonstable = true) →
      (c.SlackHook = "" ∨ s r = none) →
      ((Sink.gitlab, r) ∈ (dispatchOne c s g r).1 ↔
        c.GitlabAPIToken ≠ "" ∧ c.GitlabHostname ≠ "" ∧ c.GitlabProjectID > 0)) := by
  simp only [← gitlabEnabled_iff]
  by_cases hf : (c.IgnoreNonstable && r.release.nonstable) = true
  · constructor
    · simp [dispatchOne, hf]
    · intro hpass _
      rw [Bool.and_eq_true] at hf
      exact absurd hf hpass
  · have hf2 : (c.IgnoreNonstable && r.release.nonstable) = false := by
      simpa using hf
    have hnp : ¬(c.IgnoreNonstable = true ∧ r.release.nonstable = true) := by
      rw [← Bool.and_eq_true, hf2]
      simp
    constructor
    · by_cases hse : slackEnabled c = true <;> by_cases hge : gitlabEnabled c = true <;>
        cases hs : s r <;> cases hg : g r <;>
        simp_all [dispatchOne, gitlabStep, if_neg hnp]
    · intro hpass hcond
      rcases hcond with hempty | hnone
      · have hse : slackEnabled c = false := by simp [slackEnabled, hempty]
        by_cases hge : gitlabEnabled c = true <;> cases hg : g r <;>
          simp_all [dispatchOne, gitlabStep, if_neg hnp]
      · by_cases hse : slackEnabled c = true <;> by_cases hge : gitlabEnabled c = true <;>
          cases hg : g r <;> simp_all [dispatchOne, gitlabStep, if_neg hnp]

/-- Witness for the amended C4: with only the issue-tracker configured and a
stable event, the issue-tracker sink is invoked. -/
theorem C4_witness :
    (Sink.gitlab, repoStable) ∈ (dispatchOne cfgGitlabOnly sendOk sendOk repoStable).1 :=
  ((C4_gitlab_enablement cfgGitlabOnly sendOk sendOk repoStable).2 (by decide)
    (Or.inl rfl)).mpr (by decide)

/-- C5 (counterexample): with a non-empty watch list and an empty forge
token, startup does not exit; the claim that a missing forge token causes
exit code 1 is false on the code (only the empty watch list is checked). -/
theorem C5_counterexample :
    cfgNoToken.GithubToken = "" ∧ cfgNoToken.Repositories ≠ [] ∧
    startupExit cfgNoToken = none := by
  decide

/-- C5 (amended): startup exits with code 1 iff the watch list is empty, and
never exits with code 0; a missing forge token causes no startup exit. -/
theorem C5_startup_exit (c : Config) :
    (startupExit c = some 1 ↔ c.Repositories = []) ∧ startupExit c ≠ some 0 := by
  unfold startupExit
  constructor
  · constructor
    · intro h
      by_cases hl : c.Repositories.length = 0
      · exact List.length_eq_zero.mp hl
      · simp [hl] at h
    · intro h
      simp [h]
  · by_cases hl : c.Repositories.length = 0 <;> simp [hl]

/-- Witness for the amended C5 at a concrete configuration. -/
theorem C5_witness :
    startupExit cfgNoToken ≠ some 0 :=
  (C5_startup_exit cfgNoToken).2

/-- C6 (counterexample): a chat-webhook failure and an issue-tracker failure
with the same transport error produce byte-for-byte identical warning log
records, so the records are not distinguishable by any sink tag. -/
theorem C6_counterexample :
    (dispatchOne cfgSlackOnly sendFail sendOk repoStable).2 =
      (dispatchOne cfgGitlabOnly sendOk sendFail repoStable).2 ∧
    (dispatchOne cfgSlackOnly sendFail sendOk repoStable).2 =
      [sinkFailRecord "500 Internal Server Error"] := by
  decide

/-- C6 (amended): on a sink failure the dispatcher logs one warning record
with the fixed message "failed to send release to messenger" and the error;
the record carries no sink name, and both sinks produce the same record
shape. -/
theorem C6_failure_log_untagged (c : Config) (s g : Repository → Option String)
    (r : Repository) (e : String)
    (hpass : ¬(c.IgnoreNonstable = true ∧ r.release.nonstable = true)) :
    (slackEnabled c = true → s r = some e →
      (dispatchOne c s g r).2 = [sinkFailRecord e]) ∧
    ((slackEnabled c = false ∨ s r = none) → gitlabEnabled c = true → g r = some e →
      (dispatchOne c s g r).2 = [sinkFailRecord e]) := by
  have hf2 : (c.IgnoreNonstable && r.release.nonstable) = false := by
    cases h1 : c.IgnoreNonstable <;> cases h2 : r.release.nonstable <;> simp_all
  constructor
  · intro hse hsend
    simp [dispatchOne, hf2, hse, hsend]
  · intro hslack hge hsend
    rcases hslack with hse | hnone
    · simp [dispatchOne, gitlabStep, hf2, hse, hge, hsend]
    · by_cases hse : slackEnabled c = true <;>
        simp [dispatchOne, gitlabStep, hf2, hse, hnone, hge, hsend]

/-- Witness for the amended C6: the chat sink fails on a stable event. -/
theorem C6_witness :
    (dispatchOne cfgSlackOnly sendFail sendOk repoStable).2 =
      [sinkFailRecord "500 Internal Server Error"] :=
  (C6_failure_log_untagged cfgSlackOnly sendFail sendOk repoStable
    "500 Internal Server Error" (by decide)).1 rfl rfl

/-- C10: with the chat webhook URL empty and the issue-tracker guard false,
the dispatcher still consumes every event, performs no sink invocation and
writes no warning record. -/
theorem C10_no_sinks_silent (c : Config) (s g : Repository → Option String)
    (events : List Repository)
    (hslack : c.SlackHook = "") (hgitlab : gitlabEnabled c = false) :
    (∀ r, (dispatchOne c s g r).1 = [] ∧
      ∀ lr ∈ (dispatchOne c s g r).2, lr.lvl ≠ Severity.warn) ∧
    (dispatchAll c s g events).length = events.length := by
  have hse : slackEnabled c = false := by simp [slackEnabled, hslack]
  constructor
  · intro r
    by_cases hf : (c.IgnoreNonstable && r.release.nonstable) = true
    · constructor
      · simp [dispatchOne, hf]
      · simp [dispatchOne, hf, nonstableRecord]
    · have hf2 : (c.IgnoreNonstable && r.release.nonstable) = false := by
        simpa using hf
      constructor
      · simp [dispatchOne, gitlabStep, hf2, hse, hgitlab]
      · simp [dispatchOne, gitlabStep, hf2, hse, hgitlab]
  · simp [dispatchAll]

/-- Looking up the coordinate just recorded returns the recorded tag. -/
theorem lookupTag_setTag_self (table : SeenTable) (k : Coord) (t : String) :
    lookupTag (setTag table k t) k = some t := by
  induction table with
  | nil => simp [setTag, lookupTag]
  | cons p rest ih =>
    obtain ⟨c, u⟩ := p
    by_cases h : c = k
    · simp [setTag, lookupTag, h]
    · simp [setTag, lookupTag, h, ih]

/-- Recording one coordinate leaves the others unchanged. -/
theorem lookupTag_setTag_ne (table : SeenTable) (k k2 : Coord) (t : String)
    (h : k ≠ k2) :
    lookupTag (setTag table k t) k2 = lookupTag table k2 := by
  induction table with
  | nil => simp [setTag, lookupTag, h]
  | cons p rest ih =>
    obtain ⟨c, u⟩ := p
    by_cases hc : c = k
    · subst hc
      simp [setTag, lookupTag, h]
    · simp [setTag, lookupTag, hc, ih]

/-- One poll step emits nothing and preserves consistency when every table
entry already records the tag the poll would return. -/
theorem tickRepo_consistent (table : SeenTable) (k : Coord)
    (poll : Coord → PollResult)
    (hinv : ∀ c u, lookupTag table c = some u → poll c = PollResult.release u) :
    (tickRepo table k (poll k)).2 = [] ∧
    ∀ c u, lookupTag (tickRepo table k (poll k)).1 c = some u →
      poll c = PollResult.release u := by
  unfold tickRepo
  cases hl : lookupTag table k with
  | none =>
    cases hp : poll k with
    | release t =>
      refine ⟨rfl, ?_⟩
      intro c u hu
      by_cases hc : k = c
      · subst hc
        rw [lookupTag_setTag_self] at hu
        cases hu
        exact hp
      · rw [lookupTag_setTag_ne table k c t hc] at hu
        exact hinv c u hu
    | notFound => exact ⟨rfl, hinv⟩
    | failed => exact ⟨rfl, hinv⟩
  | some u =>
    rw [hinv k u hl]
    simp only [if_pos rfl]
    exact ⟨rfl, hinv⟩

/-- A tick over the whole watch list emits nothing when every table entry
already records the tag the tick's poll would return. -/
theorem tick_consistent_no_emit (table : SeenTable) (watch : List Coord)
    (poll : Coord → PollResult)
    (hinv : ∀ c u, lookupTag table c = some u → poll c = PollResult.release u) :
    (tick table watch poll).2 = [] := by
  induction watch generalizing table with
  | nil => rfl
  | cons k rest ih =>
    have hstep := tickRepo_consistent table k poll hinv
    simp only [tick]
    rw [hstep.1, ih (tickRepo table k (poll k)).1 hstep.2]
    rfl

/-- C7: from the empty SeenTable, the Checker's first tick over any watch
list emits zero events; the first observation of each repository only
records the baseline tag. -/
theorem C7_priming (watch : List Coord) (poll : Coord → PollResult)
    (_hne : watch ≠ [])
    (_hrel : ∀ c ∈ watch, ∃ t, poll c = PollResult.release t) :
    (tick [] watch poll).2 = [] :=
  tick_consistent_no_emit [] watch poll
    (fun c u h => absurd h (by simp [lookupTag]))

/-- Witness for C7 at a one-entry watch list with a released repository. -/
theorem C7_witness :
    (tick [] [(("octocat" : String), ("hello-world" : String))]
      (fun _ => PollResult.release "v1.0.0")).2 = [] :=
  C7_priming [(("octocat" : String), ("hello-world" : String))]
    (fun _ => PollResult.release "v1.0.0") (by simp)
    (fun c _ => ⟨"v1.0.0", rfl⟩)

/-- C8 (counterexample): when the upstream tag alternates and returns to an
earlier value, the same `(owner, name, tag)` is emitted twice in one process
lifetime, so the unconditional at-most-once claim is false. -/
theorem C8_counterexample :
    (runTicks [] [coordC8] pollsC8).2 =
      [(coordC8, "v2.0.0"), (coordC8, "v1.0.0"), (coordC8, "v2.0.0")] ∧
    ((runTicks [] [coordC8] pollsC8).2.filter (fun p => p.2 == "v2.0.0")).length = 2 := by
  constructor <;> rfl

/-- A tick with an unchanged tag for an already-seen coordinate is a no-op. -/
theorem tick_single_stable (table : SeenTable) (k : Coord) (t : String)
    (h : lookupTag table k = some t) :
    tick table [k] (fun _ => PollResult.release t) = (table, []) := by
  simp [tick, tickRepo, h]

/-- Any number of ticks with an unchanged tag for an already-seen coordinate
emits nothing. -/
theorem runTicks_single_stable (table : SeenTable) (k : Coord) (t : String)
    (n : Nat) (h : lookupTag table k = some t) :
    runTicks table [k] (List.replicate n (fun _ => PollResult.release t)) =
      (table, []) := by
  induction n with
  | zero => rfl
  | succ m ih =>
    rw [List.replicate_succ]
    simp only [runTicks]
    rw [tick_single_stable table k t h]
    simpa using ih

/-- One tick with a fixed tag emits at most one event and leaves the
coordinate recorded with that tag. -/
theorem tick_single_first (table : SeenTable) (k : Coord) (t : String) :
    (tick table [k] (fun _ => PollResult.release t)).2.length ≤ 1 ∧
    lookupTag (tick table [k] (fun _ => PollResult.release t)).1 k = some t := by
  simp only [tick, tickRepo]
  cases hl : lookupTag table k with
  | none => simp [lookupTag_setTag_self]
  | some u =>
    by_cases ht : t = u
    · subst ht
      simp [hl]
    · simp [ht, lookupTag_setTag_self]

/-- C8 (amended): if a repository's latest release tag is unchanged across N
consecutive ticks, the Checker emits at most one event for it over those
ticks, from any starting SeenTable (zero when the coordinate was already
seen with that tag). -/
theorem C8_edge_trigger (table : SeenTable) (k : Coord) (t : String) (n : Nat) :
    (runTicks table [k]
      (List.replicate n (fun _ => PollResult.release t))).2.length ≤ 1 := by
  cases n with
  | zero => simp [runTicks]
  | succ m =>
    rw [List.replicate_succ]
    simp only [runTicks]
    rw [runTicks_single_stable (tick table [k]
      (fun _ => PollResult.release t)).1 k t m (tick_single_first table k t).2]
    simpa using (tick_single_first table k t).1

/-- Witness for C10 at a configuration with no sink enabled. -/
theorem C10_witness :
    (dispatchOne cfgNoSinks sendOk sendOk repoStable).1 = [] ∧
    (dispatchAll cfgNoSinks sendOk sendOk [repoStable, repoNonstable]).length = 2 :=
  ⟨((C10_no_sinks_silent cfgNoSinks sendOk sendOk [repoStable, repoNonstable]
      rfl (by decide)).1 repoStable).1,
    (C10_no_sinks_silent cfgNoSinks sendOk sendOk [repoStable, repoNonstable]
      rfl (by decide)).2⟩

/-- C9: the log-level switch sends every string whose lower-cased form is
not debug, warn or error (including the empty string) to the info filter,
and its result depends only on the lower-cased string, so recognized values
match case-insensitively; no arm of the switch exits the process (the model
is a total function into `LogFilter`). -/
theorem C9_log_level_default (s t : String) :
    (toLowerModel s ≠ "debug" → toLowerModel s ≠ "warn" → toLowerModel s ≠ "error" →
      logLevelFilter s = LogFilter.allowInfo) ∧
    (toLowerModel s = toLowerModel t → logLevelFilter s = logLevelFilter t) := by
  constructor
  · intro h1 h2 h3
    unfold logLevelFilter
    split
    · exact absurd (by assumption) h1
    · exact absurd (by assumption) h2
    · exact absurd (by assumption) h3
    · rfl
  · intro hst
    unfold logLevelFilter
    rw [hst]

/-- Witness for C9: an unrecognized level and a case variant of a
recognized one. -/
theorem C9_witness :
    logLevelFilter "verbose" = LogFilter.allowInfo ∧
    logLevelFilter "Warn" = logLevelFilter "WARN" :=
  ⟨(C9_log_level_default "verbose" "verbose").1 (by decide) (by decide) (by decide),
    (C9_log_level_default "Warn" "WARN").2 (by decide)⟩

end Notifier
